import Mathlib

/-
Verification of the ink ERC20-style token ledger (src/lib.rs).

Shallow embedding conventions:
  - AccountId is opaque in the source; we model it as Nat.
  - Balance is u128 in the source; we model it as Nat.  The single
    subtraction in transfer_helper (line 126) is guarded by the preceding
    check (value <= balance_from), and the subtraction in transfer_from
    (line 95) is guarded by its allowance check, so Nat truncated
    subtraction agrees with u128 subtraction on every execution path the
    source can take.
  - ink storage Mapping is a key-value store; we model it as an
    association list with unique keys: get looks the key up, insert
    overwrites in place or appends.
  - The source reads the caller identity from the environment; following
    the host model, the caller is an explicit first argument of every
    operation.
  - Each operation returns the post state, the list of events it emitted,
    and an optional error (Option Error mirrors Result over unit).
  - The functions suffixed _body are the literal Rust function bodies,
    in which mutations of self persist even when the function returns Err.
    The unsuffixed transfer, transfer_from, approve are the message-level
    semantics generated by the ink message attribute: since ink 4, a
    message that returns Err reverts every state change and every emitted
    event, so the observable post-call state of a failed call is the
    pre-call state.  revertOnErr is that wrapper.  The constructor new and
    the queries total_supply and balance_of have no error path at all.
-/

abbrev AccountId : Type := Nat

abbrev Balance : Type := Nat

/-- Association-list model of an ink storage Mapping with Balance values. -/
abbrev Mapping (K : Type) : Type := List (K × Balance)

/-- Mapping lookup: the value stored at key k, if any. -/
def Mapping.get {K : Type} [DecidableEq K] : Mapping K → K → Option Balance
  | [], _ => none
  | (k0, v0) :: rest, k => if k = k0 then some v0 else Mapping.get rest k

/-- Mapping write: overwrite the entry for k in place, or append a new one. -/
def Mapping.insertKV {K : Type} [DecidableEq K] : Mapping K → K → Balance → Mapping K
  | [], k, v => [(k, v)]
  | (k0, v0) :: rest, k, v =>
      if k = k0 then (k, v) :: rest else (k0, v0) :: Mapping.insertKV rest k v

/-- Sum of all stored values (used for the supply invariant). -/
def Mapping.sumValues {K : Type} (m : Mapping K) : Balance :=
  (m.map Prod.snd).sum

/-- The error enum of the contract (the source spells the second variant
with a lowercase l: AllowanceToolow). -/
inductive Error : Type where
  | BalanceTooLow : Error
  | AllowanceToolow : Error
  deriving DecidableEq

/-- Events emitted by the contract.  Field order of Transfer is
(from, to, value) with optional accounts; Approval is (from, to, value). -/
inductive Event : Type where
  | Transfer : Option AccountId → Option AccountId → Balance → Event
  | Approval : AccountId → AccountId → Balance → Event
  deriving DecidableEq

/-- The contract storage struct Erc20 (src/lib.rs lines 7-13). -/
structure Erc20 : Type where
  total_supply : Balance
  balances : Mapping AccountId
  allowances : Mapping (AccountId × AccountId)
  deriving DecidableEq

/-- The balance_of message (lines 70-73): stored entry or default 0.
It is a pure function of the state, so it modifies nothing and repeated
calls agree by construction.  The total_supply message (lines 64-67) just
returns the stored field, i.e. the projection Erc20.total_supply. -/
def Erc20.balance_of (s : Erc20) (who : AccountId) : Balance :=
  (Mapping.get s.balances who).getD 0

/-- The allowance read performed inside transfer_from (line 89):
stored entry for the ordered pair (owner, spender) or default 0. -/
def Erc20.allowance_of (s : Erc20) (owner spender : AccountId) : Balance :=
  (Mapping.get s.allowances (owner, spender)).getD 0

/-- The constructor new (lines 43-59): a single balance entry crediting
the caller with the whole supply, empty allowances, one Transfer event
from none.  Constructors have no error path: the function is total. -/
def Erc20.new (caller : AccountId) (total_supply : Balance) :
    Erc20 × List Event :=
  ({ total_supply := total_supply,
     balances := Mapping.insertKV [] caller total_supply,
     allowances := [] },
   [Event.Transfer none (some caller) total_supply])

/-- transfer_helper (lines 114-136), literally: both balances are read
before either write, the balance check precedes both writes, and on
success the map is written at from_ then at to_ and one Transfer event is
emitted. -/
def Erc20.transfer_helper (s : Erc20) (from_ to_ : AccountId)
    (value : Balance) : Erc20 × List Event × Option Error :=
  let balance_from := s.balance_of from_
  let balance_to := s.balance_of to_
  if value > balance_from then
    (s, [], some Error.BalanceTooLow)
  else
    ({ s with balances :=
        (Mapping.insertKV (Mapping.insertKV s.balances from_ (balance_from - value))
          to_ (balance_to + value)) },
     [Event.Transfer (some from_) (some to_) value], none)

/-- ink message-level wrapper: a message returning Err reverts all state
changes and emitted events, so the failed call observably returns the
pre-call state and no events. -/
def revertOnErr (s : Erc20) (r : Erc20 × List Event × Option Error) :
    Erc20 × List Event × Option Error :=
  match r.2.2 with
  | some e => (s, [], some e)
  | none => r

/-- The transfer message (lines 75-79): transfer_helper from the caller,
under the message-level revert semantics. -/
def Erc20.transfer (s : Erc20) (caller to_ : AccountId) (value : Balance) :
    Erc20 × List Event × Option Error :=
  revertOnErr s (s.transfer_helper caller to_ value)

/-- The raw body of transfer_from (lines 81-98): the allowance check, then
the allowance write, then transfer_helper.  Note the allowance write
persists in self even when transfer_helper then returns Err. -/
def Erc20.transfer_from_body (s : Erc20) (caller from_ to_ : AccountId)
    (value : Balance) : Erc20 × List Event × Option Error :=
  let allowance := (Mapping.get s.allowances (from_, caller)).getD 0
  if allowance < value then
    (s, [], some Error.AllowanceToolow)
  else
    ({ s with allowances :=
        Mapping.insertKV s.allowances (from_, caller) (allowance - value)
     }).transfer_helper from_ to_ value

/-- The transfer_from message under the message-level revert semantics. -/
def Erc20.transfer_from (s : Erc20) (caller from_ to_ : AccountId)
    (value : Balance) : Erc20 × List Event × Option Error :=
  revertOnErr s (s.transfer_from_body caller from_ to_ value)

/-- The approve message (lines 100-112): unconditional overwrite of the
allowance for (caller, spender), one Approval event, always Ok; the
revert wrapper is the identity because the error is always none. -/
def Erc20.approve (s : Erc20) (caller spender : AccountId)
    (value : Balance) : Erc20 × List Event × Option Error :=
  ({ s with allowances := Mapping.insertKV s.allowances (caller, spender) value },
   [Event.Approval caller spender value], none)

/-- States reachable from some constructor call by any sequence of the
three mutating messages (each at the observable call level). -/
inductive Reachable : Erc20 → Prop where
  | init (caller : AccountId) (s0 : Balance) :
      Reachable (Erc20.new caller s0).1
  | transfer (s : Erc20) (caller to_ : AccountId) (value : Balance) :
      Reachable s → Reachable (s.transfer caller to_ value).1
  | approve (s : Erc20) (caller spender : AccountId) (value : Balance) :
      Reachable s → Reachable (s.approve caller spender value).1
  | transfer_from (s : Erc20) (caller from_ to_ : AccountId) (value : Balance) :
      Reachable s → Reachable (s.transfer_from caller from_ to_ value).1

theorem Mapping.get_insertKV_self {K : Type} [DecidableEq K]
    (m : Mapping K) (k : K) (v : Balance) :
    Mapping.get (Mapping.insertKV m k v) k = some v := by
  induction m with
  | nil => simp [Mapping.insertKV, Mapping.get]
  | cons hd tl ih =>
      obtain ⟨k0, v0⟩ := hd
      by_cases h : k = k0 <;> simp [Mapping.insertKV, Mapping.get, h, ih]

theorem Mapping.get_insertKV_ne {K : Type} [DecidableEq K]
    (m : Mapping K) (k k' : K) (v : Balance) (h : k' ≠ k) :
    Mapping.get (Mapping.insertKV m k v) k' = Mapping.get m k' := by
  induction m with
  | nil => simp [Mapping.insertKV, Mapping.get, h]
  | cons hd tl ih =>
      obtain ⟨k0, v0⟩ := hd
      by_cases h0 : k = k0
      · subst h0
        simp [Mapping.insertKV, Mapping.get, h]
      · by_cases h1 : k' = k0 <;>
          simp [Mapping.insertKV, Mapping.get, h0, h1, ih]

/-- Unfolding equation for transfer_helper with the lets resolved. -/
theorem Erc20.transfer_helper_eq (s : Erc20) (f t : AccountId) (v : Balance) :
    s.transfer_helper f t v =
      if s.balance_of f < v then (s, [], some Error.BalanceTooLow)
      else ({ s with balances :=
          (Mapping.insertKV (Mapping.insertKV s.balances f (s.balance_of f - v))
            t (s.balance_of t + v)) },
        [Event.Transfer (some f) (some t) v], none) := rfl

/-- Unfolding equation for the transfer_from body with the let resolved. -/
theorem Erc20.transfer_from_body_eq (s : Erc20) (c f t : AccountId) (v : Balance) :
    s.transfer_from_body c f t v =
      if s.allowance_of f c < v then (s, [], some Error.AllowanceToolow)
      else ({ s with allowances :=
            Mapping.insertKV s.allowances (f, c) (s.allowance_of f c - v)
           }).transfer_helper f t v := rfl

/-- The revert wrapper does not change which result is returned. -/
theorem revertOnErr_err (s : Erc20) (r : Erc20 × List Event × Option Error) :
    (revertOnErr s r).2.2 = r.2.2 := by
  unfold revertOnErr
  cases h : r.2.2 <;> simp [h]

/-- On an Err result the revert wrapper restores the pre-call state. -/
theorem revertOnErr_of_err (s : Erc20) (r : Erc20 × List Event × Option Error)
    (e : Error) (h : r.2.2 = some e) : revertOnErr s r = (s, [], some e) := by
  unfold revertOnErr
  rw [h]

/-- On an Ok result the revert wrapper is the identity. -/
theorem revertOnErr_of_ok (s : Erc20) (r : Erc20 × List Event × Option Error)
    (h : r.2.2 = none) : revertOnErr s r = r := by
  unfold revertOnErr
  rw [h]

/-- Writing the allowances field does not change any balance read. -/
theorem balance_of_set_allowances (s : Erc20)
    (al : Mapping (AccountId × AccountId)) (a : AccountId) :
    ({ s with allowances := al } : Erc20).balance_of a = s.balance_of a := rfl

/-- C1: every call to new, transfer, approve, or transfer_from that returns
an error leaves every balance and every allowance equal to its value
immediately before the call; in particular a failed transfer_from (with
any error, BalanceTooLow included) leaves the allowance for (from, caller)
undecremented.  The constructor new and the message approve have no error
results at all (approve always returns none; new is total by its type), so
the claim is settled for them by the last conjunct and by typing. -/
theorem c1_failed_calls_leave_ledger_unchanged (s : Erc20)
    (caller from_ to_ spender : AccountId) (value v2 : Balance) (e e2 : Error) :
    ((s.transfer caller to_ value).2.2 = some e →
      (s.transfer caller to_ value).1 = s) ∧
    ((s.transfer_from caller from_ to_ value).2.2 = some e2 →
      (s.transfer_from caller from_ to_ value).1 = s ∧
      (s.transfer_from caller from_ to_ value).1.allowance_of from_ caller
        = s.allowance_of from_ caller) ∧
    ((s.approve caller spender v2).2.2 = none) := by
  refine ⟨?_, ?_, rfl⟩
  · intro he
    rw [Erc20.transfer] at he ⊢
    rw [revertOnErr_err] at he
    rw [revertOnErr_of_err s _ e he]
  · intro he
    have hst : (s.transfer_from caller from_ to_ value).1 = s := by
      rw [Erc20.transfer_from] at he ⊢
      rw [revertOnErr_err] at he
      rw [revertOnErr_of_err s _ e2 he]
    exact ⟨hst, by rw [hst]⟩

/-- C1 witness: concrete failing calls — a transfer with insufficient
balance, and a transfer_from failing with BalanceTooLow after an approve
of 50 (the allowance stays 50, undecremented, at the call level). -/
theorem c1_witness :
    (((Erc20.new 0 0).1.transfer 1 2 5).1 = (Erc20.new 0 0).1) ∧
    ((((Erc20.new 0 0).1.approve 0 1 50).1.transfer_from 1 0 2 5).2.2
       = some Error.BalanceTooLow) ∧
    ((((Erc20.new 0 0).1.approve 0 1 50).1.transfer_from 1 0 2 5).1
       = ((Erc20.new 0 0).1.approve 0 1 50).1) ∧
    ((((Erc20.new 0 0).1.approve 0 1 50).1.transfer_from 1 0 2 5).1.allowance_of 0 1
       = ((Erc20.new 0 0).1.approve 0 1 50).1.allowance_of 0 1) := by
  have h1 := (c1_failed_calls_leave_ledger_unchanged (Erc20.new 0 0).1
    1 0 2 3 5 7 Error.BalanceTooLow Error.BalanceTooLow).1
  have h2 := (c1_failed_calls_leave_ledger_unchanged
    ((Erc20.new 0 0).1.approve 0 1 50).1
    1 0 2 3 5 7 Error.BalanceTooLow Error.BalanceTooLow).2.1
  exact ⟨h1 (by decide), by decide, (h2 (by decide)).1, (h2 (by decide)).2⟩

/-- C4: transfer fails with BalanceTooLow exactly when the balance of the
caller is below value (equivalently, it succeeds exactly when the balance
covers value); and when it covers value and caller and to differ, the call
succeeds, the caller balance drops by value, the to balance rises by
value, and exactly one Transfer event (some caller, some to, value) is
emitted. -/
theorem c4_transfer_spec (s : Erc20) (caller to_ : AccountId) (value : Balance) :
    ((s.transfer caller to_ value).2.2 = some Error.BalanceTooLow ↔
       s.balance_of caller < value) ∧
    ((s.transfer caller to_ value).2.2 = none ↔ value ≤ s.balance_of caller) ∧
    (value ≤ s.balance_of caller → caller ≠ to_ →
      (s.transfer caller to_ value).1.balance_of caller
        = s.balance_of caller - value ∧
      (s.transfer caller to_ value).1.balance_of to_
        = s.balance_of to_ + value ∧
      (s.transfer caller to_ value).2.1
        = [Event.Transfer (some caller) (some to_) value]) := by
  have herr : (s.transfer caller to_ value).2.2
      = (s.transfer_helper caller to_ value).2.2 := by
    rw [Erc20.transfer, revertOnErr_err]
  refine ⟨?_, ?_, ?_⟩
  · rw [herr, Erc20.transfer_helper_eq]
    split <;> simp_all
  · rw [herr, Erc20.transfer_helper_eq]
    split <;> simp_all
  · intro hle hne
    have hok : (s.transfer_helper caller to_ value).2.2 = none := by
      rw [Erc20.transfer_helper_eq]
      split
      · rename_i h
        exact absurd h (Nat.not_lt.mpr hle)
      · rfl
    rw [Erc20.transfer, revertOnErr_of_ok _ _ hok, Erc20.transfer_helper_eq]
    split
    · rename_i h
      exact absurd h (Nat.not_lt.mpr hle)
    · refine ⟨?_, ?_, rfl⟩
      · show (Mapping.get
            (Mapping.insertKV
              (Mapping.insertKV s.balances caller (s.balance_of caller - value))
              to_ (s.balance_of to_ + value)) caller).getD 0 = _
        rw [Mapping.get_insertKV_ne _ to_ caller _ hne,
          Mapping.get_insertKV_self]
        rfl
      · show (Mapping.get
            (Mapping.insertKV
              (Mapping.insertKV s.balances caller (s.balance_of caller - value))
              to_ (s.balance_of to_ + value)) to_).getD 0 = _
        rw [Mapping.get_insertKV_self]
        rfl

/-- C4 witness: from the freshly constructed ledger with supply 100,
account 0 transfers 5 to account 1. -/
theorem c4_witness :
    (5 : Balance) ≤ (Erc20.new 0 100).1.balance_of 0 ∧
    (((Erc20.new 0 100).1.transfer 0 1 5).1.balance_of 0
       = (Erc20.new 0 100).1.balance_of 0 - 5 ∧
     ((Erc20.new 0 100).1.transfer 0 1 5).1.balance_of 1
       = (Erc20.new 0 100).1.balance_of 1 + 5 ∧
     ((Erc20.new 0 100).1.transfer 0 1 5).2.1
       = [Event.Transfer (some 0) (some 1) 5]) := by
  exact ⟨by decide,
    (c4_transfer_spec (Erc20.new 0 100).1 0 1 5).2.2 (by decide) (by decide)⟩

/-- C6: transfer_from checks the allowance for (from, caller) first — it
returns AllowanceToolow exactly when that allowance is below value,
regardless of the balance of from — and returns BalanceTooLow exactly
when the allowance suffices but the balance of from is below value.
No other operation returns AllowanceToolow: transfer returns none or
BalanceTooLow, approve always returns none, and new returns no result
at all. -/
theorem c6_transfer_from_check_order (s : Erc20)
    (caller from_ to_ spender : AccountId) (value v2 v3 : Balance) :
    ((s.transfer_from caller from_ to_ value).2.2 = some Error.AllowanceToolow ↔
       s.allowance_of from_ caller < value) ∧
    ((s.transfer_from caller from_ to_ value).2.2 = some Error.BalanceTooLow ↔
       (value ≤ s.allowance_of from_ caller ∧ s.balance_of from_ < value)) ∧
    ((s.transfer caller to_ v2).2.2 = none ∨
       (s.transfer caller to_ v2).2.2 = some Error.BalanceTooLow) ∧
    ((s.approve caller spender v3).2.2 = none) := by
  have herr : (s.transfer_from caller from_ to_ value).2.2
      = (s.transfer_from_body caller from_ to_ value).2.2 := by
    rw [Erc20.transfer_from, revertOnErr_err]
  have hbody : (s.transfer_from_body caller from_ to_ value).2.2
      = if s.allowance_of from_ caller < value then some Error.AllowanceToolow
        else if s.balance_of from_ < value then some Error.BalanceTooLow
        else none := by
    rw [Erc20.transfer_from_body_eq]
    split
    · rfl
    · rw [Erc20.transfer_helper_eq, balance_of_set_allowances]
      split <;> rfl
  refine ⟨?_, ?_, ?_, rfl⟩
  · rw [herr, hbody]
    split
    · simp_all
    · split <;> simp_all
  · rw [herr, hbody]
    split
    · simp_all
    · split <;> simp_all [Nat.not_lt]
  · rw [Erc20.transfer, revertOnErr_err, Erc20.transfer_helper_eq]
    split
    · exact Or.inr rfl
    · exact Or.inl rfl

/-- C7: approve always succeeds (even when value exceeds the balance of
the caller), overwrites the allowance for exactly the ordered pair
(caller, spender) with value, emits one Approval event, and leaves the
balances map and every other allowance pair untouched. -/
theorem c7_approve_spec (s : Erc20) (caller spender : AccountId)
    (value : Balance) :
    ((s.approve caller spender value).2.2 = none) ∧
    ((s.approve caller spender value).1.allowance_of caller spender = value) ∧
    ((s.approve caller spender value).2.1
       = [Event.Approval caller spender value]) ∧
    ((s.approve caller spender value).1.balances = s.balances) ∧
    (∀ o sp : AccountId, (o, sp) ≠ (caller, spender) →
      (s.approve caller spender value).1.allowance_of o sp
        = s.allowance_of o sp) := by
  refine ⟨rfl, ?_, rfl, rfl, ?_⟩
  · show (Mapping.get
        (Mapping.insertKV s.allowances (caller, spender) value)
        (caller, spender)).getD 0 = value
    rw [Mapping.get_insertKV_self]
    rfl
  · intro o sp hne
    show (Mapping.get
        (Mapping.insertKV s.allowances (caller, spender) value)
        (o, sp)).getD 0 = _
    rw [Mapping.get_insertKV_ne _ _ _ _ hne]
    rfl

/-- C7 witness: on a fresh ledger with supply 100, account 0 approves 500
to account 1 — more than its whole balance — and the pair (0, 2) is
unaffected. -/
theorem c7_witness :
    (((Erc20.new 0 100).1.approve 0 1 500).2.2 = none) ∧
    (((Erc20.new 0 100).1.approve 0 1 500).1.allowance_of 0 1 = 500) ∧
    (((Erc20.new 0 100).1.approve 0 1 500).1.allowance_of 0 2
       = (Erc20.new 0 100).1.allowance_of 0 2) := by
  have h := c7_approve_spec (Erc20.new 0 100).1 0 1 500
  exact ⟨h.1, h.2.1, h.2.2.2.2 0 2 (by decide)⟩

/-- C8: new(S) called by C yields total_supply S, balance S for C, balance
0 for every other account, allowance 0 for every pair, and exactly one
Transfer event (none, some C, S); S = 0 is permitted and construction is a
total function, so it never fails. -/
theorem c8_new_spec (caller : AccountId) (S : Balance) (a o sp : AccountId) :
    ((Erc20.new caller S).1.total_supply = S) ∧
    ((Erc20.new caller S).1.balance_of caller = S) ∧
    (a ≠ caller → (Erc20.new caller S).1.balance_of a = 0) ∧
    ((Erc20.new caller S).1.allowance_of o sp = 0) ∧
    ((Erc20.new caller S).2 = [Event.Transfer none (some caller) S]) := by
  refine ⟨rfl, ?_, ?_, rfl, rfl⟩
  · show (Mapping.get (Mapping.insertKV [] caller S) caller).getD 0 = S
    rw [Mapping.get_insertKV_self]
    rfl
  · intro hne
    show (Mapping.get (Mapping.insertKV [] caller S) a).getD 0 = 0
    rw [Mapping.get_insertKV_ne _ _ _ _ hne]
    rfl

/-- C8 witness: construction with supply 0 by account 0; account 1 has
balance 0. -/
theorem c8_witness :
    ((Erc20.new 0 0).1.total_supply = 0) ∧
    ((Erc20.new 0 0).1.balance_of 0 = 0) ∧
    ((Erc20.new 0 0).1.balance_of 1 = 0) ∧
    ((Erc20.new 0 0).1.allowance_of 2 3 = 0) ∧
    ((Erc20.new 0 0).2 = [Event.Transfer none (some 0) 0]) := by
  have h := c8_new_spec 0 0 1 2 3
  exact ⟨h.1, h.2.1, h.2.2.1 (by decide), h.2.2.2.1, h.2.2.2.2⟩

/-- transfer_helper never changes the stored total_supply field. -/
theorem transfer_helper_total_supply (s : Erc20) (f t : AccountId)
    (v : Balance) :
    (s.transfer_helper f t v).1.total_supply = s.total_supply := by
  rw [Erc20.transfer_helper_eq]
  split <;> rfl

/-- The revert wrapper preserves any total_supply agreement. -/
theorem revertOnErr_total_supply (s : Erc20)
    (r : Erc20 × List Event × Option Error)
    (h : r.1.total_supply = s.total_supply) :
    (revertOnErr s r).1.total_supply = s.total_supply := by
  unfold revertOnErr
  cases hh : r.2.2 <;> simp [hh, h]

/-- C9: balance_of returns the stored entry when one exists and 0 when
none does; total_supply is the constant fixed at construction — new sets
the field and no message changes it.  Both queries are pure functions of
the state in this embedding, so they modify nothing and repeated calls
with no intervening mutation agree definitionally. -/
theorem c9_query_spec (s : Erc20) (a caller from_ to_ spender : AccountId)
    (v value S : Balance) :
    (Mapping.get s.balances a = some v → s.balance_of a = v) ∧
    (Mapping.get s.balances a = none → s.balance_of a = 0) ∧
    ((Erc20.new caller S).1.total_supply = S) ∧
    ((s.transfer caller to_ value).1.total_supply = s.total_supply) ∧
    ((s.transfer_from caller from_ to_ value).1.total_supply
       = s.total_supply) ∧
    ((s.approve caller spender value).1.total_supply = s.total_supply) := by
  refine ⟨?_, ?_, rfl, ?_, ?_, rfl⟩
  · intro h
    rw [Erc20.balance_of, h]
    rfl
  · intro h
    rw [Erc20.balance_of, h]
    rfl
  · rw [Erc20.transfer]
    exact revertOnErr_total_supply s _ (transfer_helper_total_supply s _ _ _)
  · rw [Erc20.transfer_from]
    refine revertOnErr_total_supply s _ ?_
    rw [Erc20.transfer_from_body_eq]
    split
    · rfl
    · exact transfer_helper_total_supply _ _ _ _

/-- C9 witness: on the ledger new(0, 5), account 0 has a stored entry
(value 5) and account 1 has none. -/
theorem c9_witness :
    ((Erc20.new 0 5).1.balance_of 0 = 5) ∧
    ((Erc20.new 0 5).1.balance_of 1 = 0) := by
  exact ⟨(c9_query_spec (Erc20.new 0 5).1 0 0 1 2 3 5 0 5).1 (by decide),
    (c9_query_spec (Erc20.new 0 5).1 1 0 1 2 3 5 0 5).2.1 (by decide)⟩

/-- C10: a zero-value transfer succeeds for every caller, including one
with no balance entry, leaves every balance numerically unchanged (the
write may materialize an explicit zero entry, which balance_of cannot
distinguish from an absent one), and still emits one Transfer event with
value 0. -/
theorem c10_zero_value_transfer (s : Erc20) (caller to_ : AccountId) :
    ((s.transfer caller to_ 0).2.2 = none) ∧
    (∀ a : AccountId,
      (s.transfer caller to_ 0).1.balance_of a = s.balance_of a) ∧
    ((s.transfer caller to_ 0).2.1
       = [Event.Transfer (some caller) (some to_) 0]) := by
  have hok : (s.transfer_helper caller to_ 0).2.2 = none := by
    rw [Erc20.transfer_helper_eq]
    split
    · rename_i h
      exact absurd h (Nat.not_lt_zero _)
    · rfl
  have htr : s.transfer caller to_ 0 = s.transfer_helper caller to_ 0 := by
    rw [Erc20.transfer, revertOnErr_of_ok _ _ hok]
  refine ⟨by rw [htr, hok], ?_, ?_⟩
  · intro a
    rw [htr, Erc20.transfer_helper_eq]
    split
    · rename_i h
      exact absurd h (Nat.not_lt_zero _)
    · show (Mapping.get
          (Mapping.insertKV
            (Mapping.insertKV s.balances caller (s.balance_of caller - 0))
            to_ (s.balance_of to_ + 0)) a).getD 0 = s.balance_of a
      by_cases hat : a = to_
      · subst hat
        rw [Mapping.get_insertKV_self]
        simp
      · rw [Mapping.get_insertKV_ne _ _ _ _ hat]
        by_cases hac : a = caller
        · subst hac
          rw [Mapping.get_insertKV_self]
          simp
        · rw [Mapping.get_insertKV_ne _ _ _ _ hac]
          rfl
  · rw [htr, Erc20.transfer_helper_eq]
    split
    · rename_i h
      exact absurd h (Nat.not_lt_zero _)
    · rfl

/-- C2 counter-evidence: on new(0, 1000), the self transfer
transfer(0, 0, 5) succeeds and emits the claimed event, but the balance of
account 0 becomes 1005 instead of staying 1000: transfer_helper reads
balance_to before writing the decremented balance_from, so with
from = to the second write overwrites the first with the stale read plus
value, minting value tokens. -/
theorem c2_self_transfer_failing_input :
    (((Erc20.new 0 1000).1.transfer 0 0 5).2.2 = none) ∧
    (((Erc20.new 0 1000).1.transfer 0 0 5).2.1
       = [Event.Transfer (some 0) (some 0) 5]) ∧
    (((Erc20.new 0 1000).1.transfer 0 0 5).1.balance_of 0 = 1005) := by
  decide

/-- C3 counter-evidence: the state reached from new(0, 1000) by the single
successful call transfer(0, 0, 5) is reachable, yet the sum of all balance
entries is 1005 while total_supply is 1000. -/
theorem c3_sum_invariant_failing_input :
    Reachable ((Erc20.new 0 1000).1.transfer 0 0 5).1 ∧
    Mapping.sumValues (((Erc20.new 0 1000).1.transfer 0 0 5).1).balances
      = 1005 ∧
    (((Erc20.new 0 1000).1.transfer 0 0 5).1).total_supply = 1000 := by
  exact ⟨Reachable.transfer _ 0 0 5 (Reachable.init 0 1000),
    by decide, by decide⟩

/-- C5 counter-evidence: after new(0, 1000) and approve(0, 1, 50), the
call transfer_from(caller 1, from 0, to 0, 20) meets both preconditions
and succeeds, and the allowance for (0, 1) drops to 30 as claimed; but
moving 20 from account 0 to itself should leave its balance at 1000,
while the code sets it to 1020. -/
theorem c5_transfer_from_failing_input :
    ((((Erc20.new 0 1000).1.approve 0 1 50).1.transfer_from 1 0 0 20).2.2
       = none) ∧
    ((((Erc20.new 0 1000).1.approve 0 1 50).1.transfer_from 1 0 0 20).1.allowance_of 0 1
       = 30) ∧
    ((((Erc20.new 0 1000).1.approve 0 1 50).1.transfer_from 1 0 0 20).1.balance_of 0
       = 1020) := by
  decide
